import Mathlib

/-!
Shallow embedding of the text2image concurrent task engine:
`src/text2image_internal.h`, `src/task.cpp`, `src/thread_pool.cpp`,
`src/library_context.cpp`, `src/text2image.cpp`.

External effects are modelled as explicit inputs and outputs:
the outcome of one `RenderEngine::render` call is an `EngineResult`
argument (the Skia implementation catches all of its own exceptions and
converts them to `setErrorMessage` plus `return false`, so a call either
succeeds with output bytes or fails with a message); file open/write
outcomes are a `FileOutcome` argument per path; callback invocations are
returned as `CallbackEvent` values; pointers (task handles, callback
function pointers, user-data pointers) are modelled as natural numbers
with `0` standing for null.  The `backgroundBlur` field is a `float` in
the source; it is modelled as a rational because no modelled operation
computes with it.
-/

namespace Text2Image

/-- TaskStatus enum, text2image_internal.h lines 39-45. -/
inductive TaskStatus where
  | PENDING
  | RUNNING
  | COMPLETED
  | FAILED
  | CANCELLED
  deriving DecidableEq, Repr

/-- TaskPriority enum, text2image_internal.h lines 32-36. -/
inductive TaskPriority where
  | LOW
  | NORMAL
  | HIGH
  deriving DecidableEq, Repr

/-- Text2Image_Resolution enum, include/text2image.h. -/
inductive Resolution where
  | AUTO
  | R720P
  | R1080P
  | R2K
  | R4K
  | R8K
  deriving DecidableEq, Repr

/-- Text2Image_Format enum, include/text2image.h (JPEG aliases JPG,
TIFF aliases TIF, HEIF aliases HEIC, matching the shared enum values). -/
inductive Format where
  | PNG
  | JPG
  | WEBP
  | BMP
  | TIF
  | HEIC
  | AVIF
  deriving DecidableEq, Repr

/-- Text2Image_BackgroundType enum, include/text2image.h. -/
inductive BackgroundType where
  | SOLID
  | IMAGE
  deriving DecidableEq, Repr

/-- Text2Image_RenderOptions struct, include/text2image.h.
backgroundImage is a nullable C string (none = nullptr);
backgroundColor is a uint32 ARGB value. -/
structure RenderOptions where
  resolution : Resolution
  format : Format
  quality : Int
  customWidth : Int
  customHeight : Int
  backgroundType : BackgroundType
  backgroundColor : Nat
  backgroundImage : Option String
  backgroundBlur : ℚ
  borderRadius : Int
  enableJavaScript : Bool
  timeout : Int
  deriving DecidableEq, Repr

/-- Text2Image_GetDefaultOptions, text2image.cpp lines 144-176. -/
def Text2Image_GetDefaultOptions : RenderOptions :=
  { resolution := Resolution.AUTO
    format := Format.PNG
    quality := 90
    customWidth := 0
    customHeight := 0
    backgroundType := BackgroundType.SOLID
    backgroundColor := 0xFFFFFFFF
    backgroundImage := none
    backgroundBlur := 0
    borderRadius := 0
    enableJavaScript := false
    timeout := 30000 }

/-- One invocation of a registered render callback: which function pointer
was called, with which handle, success flag and user-data pointer. -/
structure CallbackEvent where
  cb : Nat
  handle : Nat
  success : Bool
  userData : Nat
  deriving DecidableEq, Repr

/-- Task class, text2image_internal.h lines 48-92.  callback is the stored
function pointer (none = nullptr), userData the opaque context pointer. -/
structure Task where
  handle : Nat
  html : String
  css : String
  options : RenderOptions
  status : TaskStatus
  errorMessage : String
  result : List UInt8
  priority : TaskPriority
  callback : Option Nat
  userData : Nat
  deriving DecidableEq, Repr

/-- Task constructor, task.cpp lines 15-25: captures content, style and
options; status PENDING, priority NORMAL, null callback and user data;
the handle is the address of the freshly allocated object (supplied here
as a fresh nonzero number). -/
def Task.create (handle : Nat) (html css : String)
    (options : RenderOptions) : Task :=
  { handle := handle
    html := html
    css := css
    options := options
    status := TaskStatus.PENDING
    errorMessage := ""
    result := []
    priority := TaskPriority.NORMAL
    callback := none
    userData := 0 }

/-- Task::setStatus, text2image_internal.h line 64 (unguarded atomic store). -/
def Task.setStatus (t : Task) (s : TaskStatus) : Task :=
  { t with status := s }

/-- Task::setErrorMessage, text2image_internal.h line 65. -/
def Task.setErrorMessage (t : Task) (message : String) : Task :=
  { t with errorMessage := message }

/-- Task::setResult, text2image_internal.h line 66. -/
def Task.setResult (t : Task) (result : List UInt8) : Task :=
  { t with result := result }

/-- Task::setCallback, text2image_internal.h lines 70-73. -/
def Task.setCallback (t : Task) (callback : Option Nat) (userData : Nat) : Task :=
  { t with callback := callback, userData := userData }

/-- Task::executeCallback, text2image_internal.h lines 75-79: if a callback
is registered, invoke it with (handle, success, userData); otherwise do
nothing.  The method writes no member, so it returns only the list of
invocations it performed. -/
def Task.executeCallback (t : Task) (success : Bool) : List CallbackEvent :=
  match t.callback with
  | some cb => [{ cb := cb, handle := t.handle, success := success, userData := t.userData }]
  | none => []

/-- Outcome of one external RenderEngine::render call
(skia_render_engine.cpp lines 144-284): every failure path calls
task->setErrorMessage(msg) and returns false (exceptions included, via the
catch blocks at lines 273-282); the success path calls
task->setResult(output) and returns true. -/
inductive EngineResult where
  | success (output : List UInt8)
  | failure (msg : String)
  deriving DecidableEq, Repr

/-- Outcome of opening/writing one output file path
(library_context.cpp lines 161-170: ofstream open check, write check). -/
inductive FileOutcome where
  | openFailed
  | writeFailed
  | ok
  deriving DecidableEq, Repr

/-- Result of one LibraryContext::renderSync call: the boolean return,
the task after the call, the last-error slot after the call, the file
write that happened (path and bytes), and the sequence of values stored
into the task's status field during the call, in order. -/
structure SyncOutcome where
  ok : Bool
  task : Task
  lastError : String
  written : Option (String × List UInt8)
  statusWrites : List TaskStatus
  deriving DecidableEq, Repr

/-- LibraryContext::renderSync, library_context.cpp lines 136-196.
initialized is m_initialized, taskGiven is whether the shared_ptr argument
is non-null, engine the outcome of the external render call, file the
open/write outcome per path, lastError the last-error slot before the
call.  The catch blocks (lines 182-195) are unreachable here: the Skia
engine catches its own exceptions and the modelled file I/O reports
failure through the stream state, not by throwing. -/
def renderSync (initialized taskGiven : Bool) (engine : EngineResult)
    (file : String → FileOutcome) (t : Task) (outputPath : Option String)
    (lastError : String) : SyncOutcome :=
  if !initialized then
    { ok := false, task := t, lastError := "Library not initialized"
      written := none, statusWrites := [] }
  else if !taskGiven then
    { ok := false, task := t, lastError := "Invalid task"
      written := none, statusWrites := [] }
  else
    let t1 := t.setStatus TaskStatus.RUNNING
    match engine with
    | EngineResult.success output =>
      let t2 := t1.setResult output
      let t3 := t2.setStatus TaskStatus.COMPLETED
      match outputPath with
      | none =>
        { ok := true, task := t3, lastError := lastError
          written := none, statusWrites := [TaskStatus.RUNNING, TaskStatus.COMPLETED] }
      | some path =>
        if t3.result = [] then
          { ok := true, task := t3, lastError := lastError
            written := none, statusWrites := [TaskStatus.RUNNING, TaskStatus.COMPLETED] }
        else
          match file path with
          | FileOutcome.openFailed =>
            { ok := false, task := t3
              lastError := "Failed to open output file: " ++ path
              written := none, statusWrites := [TaskStatus.RUNNING, TaskStatus.COMPLETED] }
          | FileOutcome.writeFailed =>
            { ok := false, task := t3
              lastError := "Failed to write to output file: " ++ path
              written := none, statusWrites := [TaskStatus.RUNNING, TaskStatus.COMPLETED] }
          | FileOutcome.ok =>
            { ok := true, task := t3, lastError := lastError
              written := some (path, t3.result)
              statusWrites := [TaskStatus.RUNNING, TaskStatus.COMPLETED] }
    | EngineResult.failure msg =>
      let t2 := t1.setErrorMessage msg
      let t3 := t2.setStatus TaskStatus.FAILED
      { ok := false, task := t3
        lastError := "Rendering failed: " ++ t3.errorMessage
        written := none, statusWrites := [TaskStatus.RUNNING, TaskStatus.FAILED] }

/-- Result of running the renderTask closure that
LibraryContext::renderAsync constructs, library_context.cpp lines 214-248:
the final success flag passed to the callback, the task after the run,
the callback invocations, and the file write performed. -/
structure ClosureOutcome where
  success : Bool
  task : Task
  events : List CallbackEvent
  written : Option (String × List UInt8)
  deriving DecidableEq, Repr

/-- The renderTask closure built by LibraryContext::renderAsync,
library_context.cpp lines 214-248: invoke the engine, set status from its
result, on success persist the bytes when a path was supplied (open/write
failure flips the task to FAILED with a phase message and clears the
success flag), and finally invoke the task's callback with the flag. -/
def renderTaskClosure (engine : EngineResult) (file : String → FileOutcome)
    (t : Task) (outputPath : Option String) : ClosureOutcome :=
  match engine with
  | EngineResult.success output =>
    let t1 := t.setResult output
    let t2 := t1.setStatus TaskStatus.COMPLETED
    match outputPath with
    | none =>
      { success := true, task := t2, events := t2.executeCallback true, written := none }
    | some path =>
      if t2.result = [] then
        { success := true, task := t2, events := t2.executeCallback true, written := none }
      else
        match file path with
        | FileOutcome.openFailed =>
          let t3 := (t2.setStatus TaskStatus.FAILED).setErrorMessage
            ("Failed to open output file: " ++ path)
          { success := false, task := t3, events := t3.executeCallback false, written := none }
        | FileOutcome.writeFailed =>
          let t3 := (t2.setStatus TaskStatus.FAILED).setErrorMessage
            ("Failed to write to output file: " ++ path)
          { success := false, task := t3, events := t3.executeCallback false, written := none }
        | FileOutcome.ok =>
          { success := true, task := t2, events := t2.executeCallback true
            written := some (path, t2.result) }
  | EngineResult.failure msg =>
    let t1 := t.setErrorMessage msg
    let t2 := t1.setStatus TaskStatus.FAILED
    { success := false, task := t2, events := t2.executeCallback false, written := none }

/-- Result of the body a worker thread runs on a dequeued task. -/
structure ExecOutcome where
  task : Task
  events : List CallbackEvent
  statusWrites : List TaskStatus
  deriving DecidableEq, Repr

/-- ThreadPool::worker execution body, thread_pool.cpp lines 133-162:
set status RUNNING, sleep 100 milliseconds (no state effect), set status
COMPLETED, invoke the callback with true.  It never consults the render
engine, the task's output path, or the render result.  The catch blocks
(lines 151-162) are unreachable here: nothing in the modelled body throws. -/
def workerExecuteBody (t : Task) : ExecOutcome :=
  let t1 := t.setStatus TaskStatus.RUNNING
  let t2 := t1.setStatus TaskStatus.COMPLETED
  { task := t2
    events := t2.executeCallback true
    statusWrites := [TaskStatus.RUNNING, TaskStatus.COMPLETED] }

/-- ThreadPool state, text2image_internal.h lines 113-119: the FIFO task
queue (front at the head), the stop flag, m_maxThreads, the size of the
m_workers vector, and m_activeThreads. -/
structure ThreadPool where
  tasks : List Task
  stop : Bool
  maxThreads : Nat
  workers : Nat
  activeThreads : Nat
  deriving DecidableEq, Repr

/-- ThreadPool::enqueue, thread_pool.cpp lines 30-45: throw
runtime_error (modelled as Except.error) when the stop flag is set,
otherwise append to the queue and notify one worker (the returned number
of condition-variable wakeups). -/
def ThreadPool.enqueue (p : ThreadPool) (t : Task) :
    Except String (ThreadPool × Nat) :=
  if p.stop then Except.error "enqueue on stopped ThreadPool"
  else Except.ok ({ p with tasks := p.tasks ++ [t] }, 1)

/-- ThreadPool::shutdown, thread_pool.cpp lines 47-65: set the stop flag
under the lock and notify all workers.  Joining and clearing the worker
vector happen only after every worker returns and are not part of this
state transition. -/
def ThreadPool.shutdown (p : ThreadPool) : ThreadPool :=
  { p with stop := true }

/-- What one iteration of the worker loop decides to do once the
condition-variable wait has released. -/
inductive WorkerDecision where
  | exitThread
  | waitAgain
  | execute (t : Task) (rest : List Task)
  deriving DecidableEq, Repr

/-- ThreadPool::worker loop head, thread_pool.cpp lines 100-131: after the
wait predicate (stop, or queue non-empty, or activeThreads at least
maxThreads) is satisfied, check shutdown/surplus: a surplus worker exits
(line 116), an idle worker with an empty queue continues waiting
(line 121); otherwise the front task is dequeued (lines 126-127) and
executed by workerExecuteBody. -/
def ThreadPool.workerStep (p : ThreadPool) : WorkerDecision :=
  if p.stop || (p.tasks.isEmpty && decide (p.activeThreads ≥ p.maxThreads)) then
    if p.workers > p.maxThreads then WorkerDecision.exitThread
    else if p.tasks.isEmpty then WorkerDecision.waitAgain
    else
      match p.tasks with
      | [] => WorkerDecision.waitAgain
      | t :: rest => WorkerDecision.execute t rest
  else
    match p.tasks with
    | [] => WorkerDecision.waitAgain
    | t :: rest => WorkerDecision.execute t rest

/-- Result of one LibraryContext::renderAsync call: the boolean return,
the task after the call (callback stored), the pool after the call, and
the last-error slot after the call. -/
structure AsyncOutcome where
  accepted : Bool
  task : Task
  pool : ThreadPool
  lastError : String
  deriving DecidableEq, Repr

/-- LibraryContext::renderAsync, library_context.cpp lines 198-263: store
the callback on the task, then enqueue the task on the pool; the throw
from a stopped pool is caught (line 255) and converted to setLastError
plus return false.  The renderTask closure built at lines 214-248 is
captured by nothing that runs; renderAsync only enqueues the task itself. -/
def renderAsync (initialized taskGiven : Bool) (t : Task)
    (callback : Option Nat) (userData : Nat) (p : ThreadPool)
    (lastError : String) : AsyncOutcome :=
  if !initialized then
    { accepted := false, task := t, pool := p, lastError := "Library not initialized" }
  else if !taskGiven then
    { accepted := false, task := t, pool := p, lastError := "Invalid task" }
  else
    let t1 := t.setCallback callback userData
    match p.enqueue t1 with
    | Except.error msg =>
      { accepted := false, task := t1, pool := p
        lastError := "Exception during async rendering setup: " ++ msg }
    | Except.ok (p1, _) =>
      { accepted := true, task := t1, pool := p1, lastError := lastError }

/-- The handle-to-task map owned by LibraryContext,
text2image_internal.h line 187. -/
structure Registry where
  tasks : List (Nat × Task)
  deriving DecidableEq, Repr

/-- LibraryContext::getTask, library_context.cpp lines 127-134. -/
def Registry.getTask (r : Registry) (handle : Nat) : Option Task :=
  r.tasks.lookup handle

/-- LibraryContext::createTask, library_context.cpp lines 87-113: fail when
not initialized (sets the last error, not tracked here); otherwise
construct a Task at a fresh address and store it under its handle. -/
def LibraryContext.createTask (initialized : Bool) (r : Registry)
    (freshHandle : Nat) (html css : String) (options : RenderOptions) :
    Option Task × Registry :=
  if !initialized then (none, r)
  else
    let task := Task.create freshHandle html css options
    (some task, { tasks := r.tasks ++ [(freshHandle, task)] })

/-- Text2Image_CreateTask, text2image.cpp lines 32-50: reject null html,
substitute Text2Image_GetDefaultOptions for a null options pointer,
substitute the empty string for a null css pointer, then delegate to
LibraryContext::createTask and return the new task's handle. -/
def Text2Image_CreateTask (initialized : Bool) (r : Registry)
    (freshHandle : Nat) (html : Option String) (css : Option String)
    (options : Option RenderOptions) : Option Nat × Registry :=
  match html with
  | none => (none, r)
  | some h =>
    let defaultOptions := Text2Image_GetDefaultOptions
    let opts :=
      match options with
      | none => defaultOptions
      | some o => o
    let c :=
      match css with
      | none => ""
      | some c0 => c0
    match LibraryContext.createTask initialized r freshHandle h c opts with
    | (none, r1) => (none, r1)
    | (some task, r1) => (some task.handle, r1)

/-- Text2Image_GetResult, text2image.cpp lines 82-117: reject a null
handle or null out-parameters, a handle that does not resolve, a task not
COMPLETED, and an empty result; otherwise allocate a fresh buffer, copy
the result bytes into it and return true.  Returns the copied bytes (none
on failure), the registry (never written), and the last-error slot after
the call. -/
def Text2Image_GetResult (r : Registry) (lastError : String) (handle : Nat)
    (bufferValid sizeValid : Bool) :
    Option (List UInt8) × Registry × String :=
  if handle = 0 ∨ bufferValid = false ∨ sizeValid = false then
    (none, r, "Invalid parameters")
  else
    match r.getTask handle with
    | none => (none, r, "Task not found")
    | some t =>
      if t.status ≠ TaskStatus.COMPLETED then (none, r, "Task not completed")
      else if t.result = [] then (none, r, "No result available")
      else (some t.result, r, lastError)

/-- The task-field invariant claimed in the spec (section 3 and section 8):
a non-empty result only in COMPLETED, a non-empty errorMessage only in
FAILED, never both at once. -/
def TaskInv (t : Task) : Prop :=
  (t.result ≠ [] → t.status = TaskStatus.COMPLETED) ∧
  (t.errorMessage ≠ "" → t.status = TaskStatus.FAILED) ∧
  ¬(t.result ≠ [] ∧ t.errorMessage ≠ "")

instance (t : Task) : Decidable (TaskInv t) := by
  unfold TaskInv
  infer_instance

/-- The forward-only status order claimed in the spec:
PENDING to RUNNING, RUNNING to COMPLETED or FAILED. -/
def Forward (a b : TaskStatus) : Prop :=
  (a = TaskStatus.PENDING ∧ b = TaskStatus.RUNNING) ∨
  (a = TaskStatus.RUNNING ∧ (b = TaskStatus.COMPLETED ∨ b = TaskStatus.FAILED))

instance (a b : TaskStatus) : Decidable (Forward a b) := by
  unfold Forward
  infer_instance

/-- The status transitions observed when a field starting at start takes
the listed sequence of written values in order. -/
def transitionsOf (start : TaskStatus) (writes : List TaskStatus) :
    List (TaskStatus × TaskStatus) :=
  (start :: writes).zip writes

/-- Sample concrete values used by witnesses and counterexamples. -/
def sampleTask : Task :=
  Task.create 1 "<p>hi</p>" "" Text2Image_GetDefaultOptions

def samplePool : ThreadPool :=
  { tasks := [], stop := false, maxThreads := 1, workers := 1, activeThreads := 0 }

def fsOk : String → FileOutcome := fun _ => FileOutcome.ok

def fsOpenFail : String → FileOutcome := fun _ => FileOutcome.openFailed

/-- C7: every task freshly constructed by createTask (any content, style
and options) has status Pending and an empty result buffer. -/
theorem c7_fresh_task_pending_and_empty (r : Registry) (handle : Nat)
    (html css : String) (options : RenderOptions) :
    (Task.create handle html css options).status = TaskStatus.PENDING ∧
    (Task.create handle html css options).result = [] ∧
    (LibraryContext.createTask true r handle html css options).1
      = some (Task.create handle html css options) :=
  ⟨rfl, rfl, rfl⟩

/-- C9: Text2Image_CreateTask with a null options pointer behaves exactly
as if the options returned by Text2Image_GetDefaultOptions had been passed
explicitly, and those defaults are: auto resolution, PNG format, quality
90, custom dimensions 0, solid opaque white background, border radius 0,
JavaScript disabled, timeout 30000. -/
theorem c9_null_options_means_defaults (initialized : Bool) (r : Registry)
    (freshHandle : Nat) (html : Option String) (css : Option String) :
    Text2Image_CreateTask initialized r freshHandle html css none
      = Text2Image_CreateTask initialized r freshHandle html css
          (some Text2Image_GetDefaultOptions) ∧
    Text2Image_GetDefaultOptions.resolution = Resolution.AUTO ∧
    Text2Image_GetDefaultOptions.format = Format.PNG ∧
    Text2Image_GetDefaultOptions.quality = 90 ∧
    Text2Image_GetDefaultOptions.customWidth = 0 ∧
    Text2Image_GetDefaultOptions.customHeight = 0 ∧
    Text2Image_GetDefaultOptions.backgroundType = BackgroundType.SOLID ∧
    Text2Image_GetDefaultOptions.backgroundColor = 0xFFFFFFFF ∧
    Text2Image_GetDefaultOptions.borderRadius = 0 ∧
    Text2Image_GetDefaultOptions.enableJavaScript = false ∧
    Text2Image_GetDefaultOptions.timeout = 30000 := by
  cases html <;>
    exact ⟨rfl, rfl, rfl, rfl, rfl, rfl, rfl, rfl, rfl, rfl, rfl⟩

/-- C10: executeCallback on a task with no registered callback (or with a
null callback registered via setCallback) invokes nothing, and the task a
null-callback renderAsync enqueues produces no callback invocation when a
worker executes it. -/
theorem c10_null_callback_is_noop (t : Task) (b : Bool) (ud : Nat) :
    (t.callback = none → t.executeCallback b = []) ∧
    (t.setCallback none ud).executeCallback b = [] ∧
    (workerExecuteBody (t.setCallback none ud)).events = [] := by
  refine ⟨fun h => ?_, rfl, rfl⟩
  simp [Task.executeCallback, h]

theorem c10_null_callback_is_noop_witness :
    Task.executeCallback sampleTask true = [] :=
  (c10_null_callback_is_noop sampleTask true 0).1 rfl

/-- C3: after ThreadPool::shutdown, enqueue always fails with the
PoolStopped error and a renderAsync submission returns false with the
pool unchanged (the rejection is reported, the work is not silently
dropped); before shutdown, enqueue appends the task to the FIFO queue
and wakes exactly one worker. -/
theorem c3_enqueue_after_shutdown_fails (p : ThreadPool) (t u : Task)
    (cb : Option Nat) (ud : Nat) (le : String) :
    p.shutdown.enqueue t = Except.error "enqueue on stopped ThreadPool" ∧
    (renderAsync true true u cb ud p.shutdown le).accepted = false ∧
    (renderAsync true true u cb ud p.shutdown le).pool = p.shutdown ∧
    (p.stop = false →
      p.enqueue t = Except.ok ({ p with tasks := p.tasks ++ [t] }, 1)) := by
  refine ⟨rfl, rfl, rfl, fun h => ?_⟩
  simp [ThreadPool.enqueue, h]

theorem c3_enqueue_after_shutdown_fails_witness :
    samplePool.shutdown.enqueue sampleTask
      = Except.error "enqueue on stopped ThreadPool" ∧
    samplePool.enqueue sampleTask
      = Except.ok ({ samplePool with tasks := samplePool.tasks ++ [sampleTask] }, 1) :=
  ⟨(c3_enqueue_after_shutdown_fails samplePool sampleTask sampleTask none 0 "").1,
   (c3_enqueue_after_shutdown_fails samplePool sampleTask sampleTask none 0 "").2.2.2 rfl⟩

/-- A task whose engine render fails (unparseable content), with a
callback registered: the failing input for C1. -/
def c1_failingTask : Task :=
  (Task.create 1 "<not html" "" Text2Image_GetDefaultOptions).setCallback (some 7) 3

/-- C1: the worker body that actually runs a dequeued task diverges from
the renderSync steps (claimed to be identical plus a final callback).
At a task whose engine render fails, the worker marks it COMPLETED and
invokes its callback with true without ever consulting the engine, while
the sync steps (both the renderTask closure renderAsync builds but never
runs, and renderSync itself) mark it FAILED and would report false. -/
theorem c1_worker_stub_diverges_from_sync :
    (workerExecuteBody c1_failingTask).task.status = TaskStatus.COMPLETED ∧
    (workerExecuteBody c1_failingTask).events
      = [{ cb := 7, handle := 1, success := true, userData := 3 }] ∧
    (renderTaskClosure (EngineResult.failure "Failed to parse HTML/CSS")
        fsOk c1_failingTask none).task.status = TaskStatus.FAILED ∧
    (renderTaskClosure (EngineResult.failure "Failed to parse HTML/CSS")
        fsOk c1_failingTask none).events
      = [{ cb := 7, handle := 1, success := false, userData := 3 }] ∧
    (renderSync true true (EngineResult.failure "Failed to parse HTML/CSS")
        fsOk c1_failingTask none "").task.status = TaskStatus.FAILED ∧
    (renderSync true true (EngineResult.failure "Failed to parse HTML/CSS")
        fsOk c1_failingTask none "").ok = false :=
  ⟨rfl, rfl, rfl, rfl, rfl, rfl⟩

/-- The pool state right after shutdown() sets the stop flag while one
task is still queued: the failing input for C2. -/
def c2_poolAfterShutdown : ThreadPool :=
  ThreadPool.shutdown
    { tasks := [sampleTask.setCallback (some 9) 4]
      stop := false, maxThreads := 1, workers := 1, activeThreads := 0 }

/-- C2: a task still queued when shutdown sets the stop flag is not
abandoned by the code: the woken worker's next loop iteration dequeues
and executes it, invoking its callback. -/
theorem c2_queued_task_executed_after_stop :
    c2_poolAfterShutdown.stop = true ∧
    c2_poolAfterShutdown.workerStep
      = WorkerDecision.execute (sampleTask.setCallback (some 9) 4) [] ∧
    (workerExecuteBody (sampleTask.setCallback (some 9) 4)).events
      = [{ cb := 9, handle := 1, success := true, userData := 4 }] :=
  ⟨rfl, rfl, rfl⟩

/-- C4 counterexample: the engine succeeds with bytes [137] but the output
file cannot be opened; renderSync returns false, yet the task's own error
message is left empty (no record of which phase failed is stored on the
task — the message goes to the process-wide last-error slot instead). -/
theorem c4_counterexample_task_message_not_set :
    (renderSync true true (EngineResult.success [137]) fsOpenFail sampleTask
        (some "out.png") "").ok = false ∧
    (renderSync true true (EngineResult.success [137]) fsOpenFail sampleTask
        (some "out.png") "").task.errorMessage = "" :=
  ⟨rfl, rfl⟩

/-- C4 amended: when the engine succeeds with non-empty output but the
supplied output file cannot be opened or written, renderSync returns
false and records which phase failed in the registry's last-error slot;
the task's error message is left unchanged and its status stays
COMPLETED. -/
theorem c4_amended_phase_recorded_in_last_error (t : Task)
    (path le : String) (out : List UInt8) (file : String → FileOutcome)
    (hout : out ≠ []) :
    (file path = FileOutcome.openFailed →
      (renderSync true true (EngineResult.success out) file t (some path) le).ok = false ∧
      (renderSync true true (EngineResult.success out) file t (some path) le).lastError
        = "Failed to open output file: " ++ path ∧
      (renderSync true true (EngineResult.success out) file t (some path) le).task.errorMessage
        = t.errorMessage ∧
      (renderSync true true (EngineResult.success out) file t (some path) le).task.status
        = TaskStatus.COMPLETED) ∧
    (file path = FileOutcome.writeFailed →
      (renderSync true true (EngineResult.success out) file t (some path) le).ok = false ∧
      (renderSync true true (EngineResult.success out) file t (some path) le).lastError
        = "Failed to write to output file: " ++ path ∧
      (renderSync true true (EngineResult.success out) file t (some path) le).task.errorMessage
        = t.errorMessage ∧
      (renderSync true true (EngineResult.success out) file t (some path) le).task.status
        = TaskStatus.COMPLETED) := by
  constructor <;> intro hf <;>
    simp [renderSync, hf, hout, Task.setStatus, Task.setResult, Task.setErrorMessage]

theorem c4_amended_phase_recorded_in_last_error_witness :
    (renderSync true true (EngineResult.success [137]) fsOpenFail sampleTask
        (some "o.png") "").lastError = "Failed to open output file: " ++ "o.png" :=
  ((c4_amended_phase_recorded_in_last_error sampleTask "o.png" "" [137]
      fsOpenFail (by simp)).1 rfl).2.1

/-- A first renderSync on the sample task in which the external engine
fails (for example the Skia surface cannot be created). -/
def c5_firstRender : SyncOutcome :=
  renderSync true true (EngineResult.failure "Failed to create Skia surface")
    fsOk sampleTask none ""

/-- A second renderSync on the same task in which the engine succeeds. -/
def c5_secondRender : SyncOutcome :=
  renderSync true true (EngineResult.success [137]) fsOk c5_firstRender.task
    none c5_firstRender.lastError

/-- C5 counterexample: render the same task twice, a failure followed by a
success.  No operation ever clears errorMessage, so the final task has a
non-empty result, status COMPLETED, and a stale non-empty errorMessage:
the claimed invariant fails. -/
theorem c5_counterexample_stale_error_message :
    c5_secondRender.task.result = [137] ∧
    c5_secondRender.task.errorMessage = "Failed to create Skia surface" ∧
    c5_secondRender.task.status = TaskStatus.COMPLETED ∧
    ¬TaskInv c5_secondRender.task := by
  refine ⟨rfl, rfl, rfl, ?_⟩
  decide

/-- C5 amended: for a task whose errorMessage and result are both empty
(in particular any freshly created task), a single render operation —
renderSync with any engine and file outcome, or the worker body —
establishes the invariant: non-empty result only in COMPLETED, non-empty
errorMessage only in FAILED, never both.  Repeated renders can violate it
because no operation clears the stale fields. -/
theorem c5_amended_invariant_after_single_render (t : Task)
    (engine : EngineResult) (file : String → FileOutcome)
    (outputPath : Option String) (le : String) (initialized taskGiven : Bool)
    (hErr : t.errorMessage = "") (hRes : t.result = []) :
    TaskInv (renderSync initialized taskGiven engine file t outputPath le).task ∧
    TaskInv (workerExecuteBody t).task := by
  constructor
  · unfold renderSync
    cases initialized <;> cases taskGiven <;>
      simp_all [TaskInv, Task.setStatus, Task.setResult, Task.setErrorMessage]
    cases engine with
    | success output =>
      cases outputPath with
      | none => simp [TaskInv, Task.setStatus, Task.setResult, hErr]
      | some path =>
        by_cases h : output = [] <;> cases hf : file path <;>
          simp [TaskInv, Task.setStatus, Task.setResult, hErr, h, hf]
    | failure msg =>
      by_cases h : msg = "" <;>
        simp [TaskInv, Task.setStatus, Task.setErrorMessage, hRes, h]
  · simp [TaskInv, workerExecuteBody, Task.setStatus, hErr, hRes]

theorem c5_amended_invariant_after_single_render_witness :
    TaskInv (renderSync true true (EngineResult.failure "Failed to parse HTML/CSS")
      fsOk sampleTask none "").task :=
  (c5_amended_invariant_after_single_render sampleTask
    (EngineResult.failure "Failed to parse HTML/CSS") fsOk none "" true true
    rfl rfl).1

/-- The sample task after a first successful renderSync: status COMPLETED. -/
def c6_completedTask : Task :=
  (renderSync true true (EngineResult.success [137]) fsOk sampleTask none "").task

/-- C6 counterexample: renderSync on a task that is already COMPLETED
(obtained by an earlier successful renderSync) stores RUNNING into its
status as its first write — a transition from COMPLETED back to RUNNING,
which the claimed forward-only order forbids. -/
theorem c6_counterexample_completed_back_to_running :
    c6_completedTask.status = TaskStatus.COMPLETED ∧
    (TaskStatus.COMPLETED, TaskStatus.RUNNING) ∈
      transitionsOf c6_completedTask.status
        (renderSync true true (EngineResult.success [137]) fsOk c6_completedTask
          none "").statusWrites ∧
    ¬Forward TaskStatus.COMPLETED TaskStatus.RUNNING := by
  refine ⟨rfl, ?_, ?_⟩ <;> decide

/-- C6 amended: for a task whose status is PENDING, every status
transition performed by a single render operation (renderSync with any
outcome, or the worker body) moves forward along
PENDING to RUNNING to COMPLETED or FAILED; but setStatus is an unguarded
store, so re-invoking a render on a task already in a terminal state moves
it back to RUNNING. -/
theorem renderSync_statusWrites_cases (initialized taskGiven : Bool)
    (engine : EngineResult) (file : String → FileOutcome) (t : Task)
    (outputPath : Option String) (le : String) :
    (renderSync initialized taskGiven engine file t outputPath le).statusWrites = [] ∨
    (renderSync initialized taskGiven engine file t outputPath le).statusWrites
      = [TaskStatus.RUNNING, TaskStatus.COMPLETED] ∨
    (renderSync initialized taskGiven engine file t outputPath le).statusWrites
      = [TaskStatus.RUNNING, TaskStatus.FAILED] := by
  unfold renderSync
  cases initialized <;> cases taskGiven <;> simp
  cases engine with
  | success output =>
    cases outputPath with
    | none => simp
    | some path =>
      by_cases ho : output = []
      · simp [ho, Task.setStatus, Task.setResult]
      · cases hf : file path <;> simp [ho, hf, Task.setStatus, Task.setResult]
  | failure msg => simp

theorem c6_amended_forward_from_pending (t : Task) (engine : EngineResult)
    (file : String → FileOutcome) (outputPath : Option String) (le : String)
    (initialized taskGiven : Bool) (h : t.status = TaskStatus.PENDING) :
    (∀ p ∈ transitionsOf t.status
        (renderSync initialized taskGiven engine file t outputPath le).statusWrites,
      Forward p.1 p.2) ∧
    (∀ p ∈ transitionsOf t.status (workerExecuteBody t).statusWrites,
      Forward p.1 p.2) := by
  have key : ∀ ws : List TaskStatus,
      (ws = [] ∨ ws = [TaskStatus.RUNNING, TaskStatus.COMPLETED] ∨
        ws = [TaskStatus.RUNNING, TaskStatus.FAILED]) →
      ∀ p ∈ transitionsOf TaskStatus.PENDING ws, Forward p.1 p.2 := by
    rintro ws (rfl | rfl | rfl) <;> decide
  rw [h]
  exact ⟨key _ (renderSync_statusWrites_cases initialized taskGiven engine
      file t outputPath le),
    key _ (Or.inr (Or.inl rfl))⟩

theorem c6_amended_forward_from_pending_witness :
    Forward TaskStatus.PENDING TaskStatus.RUNNING :=
  (c6_amended_forward_from_pending sampleTask (EngineResult.success [137])
      fsOk none "" true true rfl).1
    (TaskStatus.PENDING, TaskStatus.RUNNING) (by decide)

/-- C8: Text2Image_GetResult succeeds exactly when the handle is non-null,
both out-parameters are non-null, and the handle resolves to a live task
whose status is COMPLETED with a non-empty result; on success the returned
buffer holds a copy of the task's result bytes; the registry (and hence
the task's stored result) is never modified. -/
theorem c8_get_result_succeeds_iff (r : Registry) (le : String) (handle : Nat)
    (bufferValid sizeValid : Bool) :
    ((Text2Image_GetResult r le handle bufferValid sizeValid).1.isSome ↔
      (handle ≠ 0 ∧ bufferValid = true ∧ sizeValid = true ∧
        ∃ t, r.getTask handle = some t ∧ t.status = TaskStatus.COMPLETED ∧
          t.result ≠ [])) ∧
    (∀ bytes,
      (Text2Image_GetResult r le handle bufferValid sizeValid).1 = some bytes →
      ∃ t, r.getTask handle = some t ∧ bytes = t.result) ∧
    (Text2Image_GetResult r le handle bufferValid sizeValid).2.1 = r := by
  unfold Text2Image_GetResult
  by_cases hcond : handle = 0 ∨ bufferValid = false ∨ sizeValid = false
  · rw [if_pos hcond]
    refine ⟨?_, ?_, rfl⟩
    · simp only [Option.isSome_none, Bool.false_eq_true, false_iff]
      rintro ⟨h1, h2, h3, -⟩
      rcases hcond with hc | hc | hc
      · exact h1 hc
      · rw [h2] at hc; cases hc
      · rw [h3] at hc; cases hc
    · intro bytes hbytes
      cases hbytes
  · rw [if_neg hcond]
    push_neg at hcond
    obtain ⟨h0, hb, hs⟩ := hcond
    have hb1 : bufferValid = true := by revert hb; cases bufferValid <;> simp
    have hs1 : sizeValid = true := by revert hs; cases sizeValid <;> simp
    cases hT : r.getTask handle with
    | none =>
      simp only [hT]
      refine ⟨by simp, ?_, by simp⟩
      intro bytes hbytes
      cases hbytes
    | some t =>
      simp only [hT]
      by_cases hst : t.status = TaskStatus.COMPLETED
      · by_cases hres : t.result = []
        · rw [if_neg (by simp [hst]), if_pos hres]
          refine ⟨by simp [hres], ?_, by simp⟩
          intro bytes hbytes
          cases hbytes
        · rw [if_neg (by simp [hst]), if_neg hres]
          refine ⟨by simp [h0, hb1, hs1, hst, hres], ?_, by simp⟩
          intro bytes hbytes
          exact ⟨t, rfl, (Option.some.inj hbytes).symm⟩
      · rw [if_pos (by simp [hst])]
        refine ⟨by simp [hst], ?_, by simp⟩
        intro bytes hbytes
        cases hbytes

def c8_sampleTaskDone : Task :=
  (sampleTask.setResult [137]).setStatus TaskStatus.COMPLETED

def c8_sampleRegistry : Registry :=
  { tasks := [(1, c8_sampleTaskDone)] }

theorem c8_get_result_succeeds_iff_witness :
    (Text2Image_GetResult c8_sampleRegistry "" 1 true true).1.isSome :=
  (c8_get_result_succeeds_iff c8_sampleRegistry "" 1 true true).1.mpr
    ⟨by decide, rfl, rfl, c8_sampleTaskDone, rfl, rfl, by decide⟩

end Text2Image
